import Mathlib

/-
Shallow embedding of fbia.py, a batch job that reads a Facebook Instant
Articles RSS feed, queries the Insights API per article and metric, upserts
rows into a SQLite table, and publishes a CSV.  Network responses and the
XML parser are inputs of the model (the environment); sys.exit is modelled
by an explicit result constructor; print output is collected in a log list.
-/

set_option autoImplicit false

namespace Fbia

/-- Result of a Python code path that may call sys.exit: either the process
terminates with an exit code, or the function returns a value. -/
inductive PyResult (α : Type) where
  | exit (code : Nat) : PyResult α
  | ok (a : α) : PyResult α
  deriving DecidableEq, Repr

/-- One datapoint of an insights series.  The source reads day["value"], a
decimal string, and applies Python int(); value here is that integer. -/
structure Datapoint where
  value : Int
  deriving DecidableEq, Repr

/-- Model of the json object stored under the key "insights": it may or may
not carry a "data" list. -/
structure Insights where
  data : Option (List Datapoint)
  deriving DecidableEq, Repr

/-- Model of the json object stored under the key "instant_article". -/
structure InstantArticle where
  insights : Option Insights
  deriving DecidableEq, Repr

/-- Model of the parsed json body of an insights API response. -/
structure InsightsBody where
  instant_article : Option InstantArticle
  deriving DecidableEq, Repr

/-- Chained lookup api_request.json()["instant_article"]["insights"]["data"]
from fbia.py line 49; none models the KeyError branch of the try/except. -/
def dataPath (b : InsightsBody) : Option (List Datapoint) :=
  b.instant_article.bind (fun ia => ia.insights.bind (fun i => i.data))

/-- Body whose data path is present and holds the given datapoints. -/
def mkBody (l : List Datapoint) : InsightsBody :=
  ⟨some ⟨some ⟨some l⟩⟩⟩

/-- Model of a requests.Response for the insights endpoint: status code, the
final request URL (api_request.url) and the parsed json body. -/
structure ApiResponse where
  status_code : Nat
  url : String
  body : InsightsBody
  deriving DecidableEq, Repr

/-- The params dict passed to requests.get in get_insights_total. -/
structure ApiRequestParams where
  fields : String
  id : String
  access_token : String
  deriving DecidableEq, Repr

/-- Lines 25-27 of fbia.py: period defaults to week, except all_views. -/
def metric_period (metric : String) : String :=
  if metric = "all_views" then "day" else "week"

/-- Lines 30-32 of fbia.py: since defaults to 15 Jan, 2016, except
all_view_durations_average. -/
def metric_since (metric : String) : String :=
  if metric = "all_view_durations_average" then "24 Mar, 2016" else "15 Jan, 2016"

/-- Lines 34-35 of fbia.py: the fields query string, braces written with
hex escapes. -/
def insights_query (metric : String) : String :=
  "instant_article\x7binsights.metric(" ++ metric ++ ").period("
    ++ metric_period metric ++ ").since(" ++ metric_since metric ++ ")\x7d"

/-- The params dict built at lines 37-41 of fbia.py. -/
def insights_request_params (url metric page_access_token : String) : ApiRequestParams :=
  { fields := insights_query metric, id := url, access_token := page_access_token }

/-- Observable outcome of one get_insights_total call: the request it sent,
the lines it printed, and its result. -/
structure InsightsRun where
  request : ApiRequestParams
  logs : List String
  result : PyResult Int
  deriving DecidableEq, Repr

/-- Embedding of get_insights_total (fbia.py lines 16-61).  The HTTP layer is
the function api from request params to response.  Non-200 status prints the
request URL and exits 1; a missing data path prints a notice and returns 0;
otherwise the loop at lines 57-59 totals the value fields. -/
def get_insights_total (api : ApiRequestParams → ApiResponse)
    (url metric page_access_token : String) : InsightsRun :=
  if (api (insights_request_params url metric page_access_token)).status_code ≠ 200 then
    { request := insights_request_params url metric page_access_token,
      logs := ["HTTP error fetching \""
                ++ (api (insights_request_params url metric page_access_token)).url
                ++ "\" from Facebook API."],
      result := .exit 1 }
  else
    match dataPath (api (insights_request_params url metric page_access_token)).body with
    | none =>
        { request := insights_request_params url metric page_access_token,
          logs := ["** No data for \"" ++ metric ++ "\" metric from \""
                    ++ (api (insights_request_params url metric page_access_token)).url
                    ++ "\"."],
          result := .ok 0 }
    | some views =>
        { request := insights_request_params url metric page_access_token, logs := [],
          result := .ok (views.foldl (fun metric_total day => metric_total + day.value) 0) }

/-- The totaling loop is summation of the value fields. -/
theorem foldl_add_value (l : List Datapoint) (acc : Int) :
    l.foldl (fun metric_total day => metric_total + day.value) acc
      = acc + (l.map (fun day => day.value)).sum := by
  induction l generalizing acc with
  | nil => simp
  | cons d t ih => simp [ih, add_assoc]

/-- C1: on a 200 response whose body carries the data path
instant_article.insights.data, get_insights_total returns the sum of the
integer value fields of all datapoints. -/
theorem get_insights_total_sums_values
    (api : ApiRequestParams → ApiResponse) (url metric tok : String)
    (l : List Datapoint)
    (h200 : (api (insights_request_params url metric tok)).status_code = 200)
    (hdata : dataPath (api (insights_request_params url metric tok)).body = some l) :
    (get_insights_total api url metric tok).result
      = PyResult.ok ((l.map (fun day => day.value)).sum) := by
  unfold get_insights_total
  simp [h200, hdata, foldl_add_value]

/-- Concrete insights environment used to instantiate C1. -/
def w1api : ApiRequestParams → ApiResponse :=
  fun p => { status_code := 200, url := p.id, body := mkBody [⟨3⟩, ⟨5⟩] }

/-- Witness for C1: datapoints with values 3 and 5 total 8. -/
theorem get_insights_total_sums_values_witness :
    (get_insights_total w1api ("http://x/1") ("all_views") ("tok")).result
      = PyResult.ok 8 := by
  have h := get_insights_total_sums_values w1api ("http://x/1") ("all_views") ("tok")
    [{ value := 3 }, { value := 5 }] rfl rfl
  simpa using h

/-- C2: the query sent by get_insights_total uses the metric's period and
since date: period week and since 15 Jan, 2016 by default, period day for
all_views, since 24 Mar, 2016 for all_view_durations_average. -/
theorem get_insights_total_query_config
    (api : ApiRequestParams → ApiResponse) (url metric tok : String) :
    (get_insights_total api url metric tok).request.fields
        = "instant_article\x7binsights.metric(" ++ metric ++ ").period("
            ++ metric_period metric ++ ").since(" ++ metric_since metric ++ ")\x7d"
      ∧ (metric ≠ "all_views" → metric_period metric = "week")
      ∧ (metric ≠ "all_view_durations_average" → metric_since metric = "15 Jan, 2016")
      ∧ metric_period ("all_views") = "day"
      ∧ metric_since ("all_views") = "15 Jan, 2016"
      ∧ metric_period ("all_view_durations_average") = "week"
      ∧ metric_since ("all_view_durations_average") = "24 Mar, 2016" := by
  refine ⟨?_, ?_, ?_, rfl, rfl, rfl, rfl⟩
  · unfold get_insights_total
    split
    · rfl
    · split <;> rfl
  · intro h
    simp [metric_period, h]
  · intro h
    simp [metric_since, h]

/-- Witness for C2: a metric with no special case gets the defaults. -/
theorem get_insights_total_query_config_witness :
    metric_period ("all_scrolls_average") = "week"
      ∧ metric_since ("all_scrolls_average") = "15 Jan, 2016" := by
  have h := get_insights_total_query_config w1api ("u") ("all_scrolls_average") ("t")
  exact ⟨h.2.1 (by decide), h.2.2.1 (by decide)⟩

/-- C5: on a 200 response whose body lacks the data path, get_insights_total
returns 0 (it does not exit) and prints a notice naming the metric. -/
theorem get_insights_total_missing_data_zero
    (api : ApiRequestParams → ApiResponse) (url metric tok : String)
    (h200 : (api (insights_request_params url metric tok)).status_code = 200)
    (hdata : dataPath (api (insights_request_params url metric tok)).body = none) :
    (get_insights_total api url metric tok).result = PyResult.ok 0
      ∧ (get_insights_total api url metric tok).logs
          = ["** No data for \"" ++ metric ++ "\" metric from \""
              ++ (api (insights_request_params url metric tok)).url ++ "\"."] := by
  unfold get_insights_total
  simp [h200, hdata]

/-- Concrete insights environment with a body missing the data path. -/
def w5api : ApiRequestParams → ApiResponse :=
  fun p => { status_code := 200, url := p.id, body := { instant_article := none } }

/-- Witness for C5: a 200 response with no instant_article key yields 0. -/
theorem get_insights_total_missing_data_zero_witness :
    (get_insights_total w5api ("http://x/1") ("all_views") ("tok")).result
      = PyResult.ok 0 :=
  (get_insights_total_missing_data_zero w5api ("http://x/1") ("all_views") ("tok")
    rfl rfl).1

/-- C6: on a non-200 response, get_insights_total exits with code 1 (it never
returns a value) after printing the request URL. -/
theorem get_insights_total_http_error_exits
    (api : ApiRequestParams → ApiResponse) (url metric tok : String)
    (h : (api (insights_request_params url metric tok)).status_code ≠ 200) :
    (get_insights_total api url metric tok).result = PyResult.exit 1
      ∧ (get_insights_total api url metric tok).logs
          = ["HTTP error fetching \""
              ++ (api (insights_request_params url metric tok)).url
              ++ "\" from Facebook API."] := by
  unfold get_insights_total
  simp [h]

/-- Concrete insights environment answering 400 to every request. -/
def w6api : ApiRequestParams → ApiResponse :=
  fun p => { status_code := 400, url := p.id, body := { instant_article := none } }

/-- Witness for C6: a 400 response makes get_insights_total exit 1. -/
theorem get_insights_total_http_error_exits_witness :
    (get_insights_total w6api ("http://x/1") ("all_views") ("tok")).result
      = PyResult.exit 1 :=
  (get_insights_total_http_error_exits w6api ("http://x/1") ("all_views") ("tok")
    (by decide)).1

/-- Concrete insights environment whose single datapoint has value -3. -/
def w4negapi : ApiRequestParams → ApiResponse :=
  fun p => { status_code := 200, url := p.id, body := mkBody [⟨-3⟩] }

/-- C4 counterexample: the code never checks signs, so a response whose
datapoint has value -3 makes get_insights_total return normally with the
negative total -3, refuting the claim that every normal return is >= 0. -/
theorem get_insights_total_negative_counterexample :
    (get_insights_total w4negapi ("http://x/1") ("all_views") ("tok")).result
      = PyResult.ok (-3)
      ∧ ¬ (0 ≤ (-3 : Int)) := by
  constructor
  · decide
  · decide

/-- The totaling loop keeps a nonnegative accumulator nonnegative when every
datapoint value is nonnegative. -/
theorem foldl_add_value_nonneg (l : List Datapoint) (acc : Int)
    (hacc : 0 ≤ acc) (h : ∀ d ∈ l, 0 ≤ d.value) :
    0 ≤ l.foldl (fun metric_total day => metric_total + day.value) acc := by
  induction l generalizing acc with
  | nil => simpa using hacc
  | cons d t ih =>
      simp only [List.foldl_cons]
      exact ih _ (add_nonneg hacc (h d (List.mem_cons_self d t)))
        (fun x hx => h x (List.mem_cons_of_mem d hx))

/-- C4 amended: whenever get_insights_total returns normally and every
datapoint value of the response is nonnegative (as genuine API data are),
the returned total is nonnegative. -/
theorem get_insights_total_nonneg_amended
    (api : ApiRequestParams → ApiResponse) (url metric tok : String) (n : Int)
    (hret : (get_insights_total api url metric tok).result = PyResult.ok n)
    (hvals : ∀ l, dataPath (api (insights_request_params url metric tok)).body = some l →
        ∀ d ∈ l, 0 ≤ d.value) :
    0 ≤ n := by
  unfold get_insights_total at hret
  by_cases h200 : (api (insights_request_params url metric tok)).status_code = 200
  · rcases hdp : dataPath (api (insights_request_params url metric tok)).body with _ | l
    · simp [h200, hdp] at hret
      omega
    · simp [h200, hdp] at hret
      rcases hret with ⟨rfl⟩
      exact foldl_add_value_nonneg l 0 (by decide) (hvals l hdp)
  · simp [h200] at hret

/-- Concrete insights environment with datapoint values 3 and 5. -/
def w4api : ApiRequestParams → ApiResponse :=
  fun p => { status_code := 200, url := p.id, body := mkBody [⟨3⟩, ⟨5⟩] }

/-- Witness for the amended C4: with datapoints 3 and 5 the total 8 is
nonnegative. -/
theorem get_insights_total_nonneg_amended_witness : 0 ≤ (8 : Int) :=
  get_insights_total_nonneg_amended w4api ("u") ("all_views") ("t") 8 (by decide)
    (by
      intro l hl d hd
      have h3 : dataPath (w4api (insights_request_params ("u") ("all_views") ("t"))).body
          = some [{ value := 3 }, { value := 5 }] := rfl
      rw [h3] at hl
      have h2 : l = [{ value := 3 }, { value := 5 }] := (Option.some_inj.mp hl).symm
      subst h2
      simp at hd
      rcases hd with rfl | rfl <;> decide)

/-- One RSS item as read by get_insights (fbia.py lines 169-179). -/
structure FeedItem where
  guid : String
  title : String
  pubDate : String
  author : String
  link : String
  deriving DecidableEq, Repr

/-- The channel object of the parsed feed. -/
structure RssChannel where
  item : List FeedItem
  deriving DecidableEq, Repr

/-- The rss object of the parsed feed. -/
structure Rss where
  channel : RssChannel
  deriving DecidableEq, Repr

/-- Result of xmltodict.parse on the feed: get_insights reads
parsed_feed["rss"]["channel"]["item"]. -/
structure ParsedFeed where
  rss : Rss
  deriving DecidableEq, Repr

/-- One row of the fbia table (fbia.py lines 174-186).  Field names map the
row dict keys: headline is "Headline", publication_date is
"Publication date", total_views is "Total views", average_view_duration is
"Average view duration", average_scroll_depth is "Average scroll depth". -/
structure InsightRow where
  id : String
  headline : String
  publication_date : String
  author : String
  url : String
  total_views : Int
  average_view_duration : Int
  average_scroll_depth : Int
  deriving DecidableEq, Repr

/-- dataset's table.upsert(row, [id]): if a row with the same id exists, the
matching rows are updated in place; otherwise the row is appended. -/
def upsert (t : List InsightRow) (r : InsightRow) : List InsightRow :=
  if t.any (fun x => x.id == r.id) then
    t.map (fun x => if x.id == r.id then r else x)
  else
    t ++ [r]

/-- Invariant of the fbia table: at most one row per article id. -/
def AtMostOnePerId (t : List InsightRow) : Prop :=
  ∀ s : String, (t.filter (fun x => x.id == s)).length ≤ 1

/-- Replacing the rows matching r's id by r does not change any row's id. -/
theorem replace_id (r a : InsightRow) : (if a.id == r.id then r else a).id = a.id := by
  split
  · next h => exact (eq_of_beq h).symm
  · rfl

/-- Filtering by id keeps a matching head. -/
theorem filter_id_cons_pos (l : List InsightRow) (a : InsightRow) (s : String)
    (h : (a.id == s) = true) :
    List.filter (fun x => x.id == s) (a :: l)
      = a :: List.filter (fun x => x.id == s) l := by
  simp [List.filter_cons, h]

/-- Filtering by id drops a non-matching head. -/
theorem filter_id_cons_neg (l : List InsightRow) (a : InsightRow) (s : String)
    (h : (a.id == s) = false) :
    List.filter (fun x => x.id == s) (a :: l)
      = List.filter (fun x => x.id == s) l := by
  simp [List.filter_cons, h]

/-- The in-place update branch of upsert preserves per-id row counts. -/
theorem filter_map_replace (t : List InsightRow) (r : InsightRow) (s : String) :
    ((t.map (fun x => if x.id == r.id then r else x)).filter
        (fun x => x.id == s)).length
      = (t.filter (fun x => x.id == s)).length := by
  induction t with
  | nil => rfl
  | cons a t ih =>
      rw [List.map_cons]
      cases hs : (a.id == s) with
      | true =>
          have hs' : ((if a.id == r.id then r else a).id == s) = true := by
            rw [replace_id]
            exact hs
          rw [filter_id_cons_pos _ _ _ hs', filter_id_cons_pos _ _ _ hs,
            List.length_cons, List.length_cons, ih]
      | false =>
          have hs' : ((if a.id == r.id then r else a).id == s) = false := by
            rw [replace_id]
            exact hs
          rw [filter_id_cons_neg _ _ _ hs', filter_id_cons_neg _ _ _ hs]
          exact ih

/-- A list none of whose entries satisfies a predicate filters to nil. -/
theorem filter_of_any_eq_false (t : List InsightRow) (p : InsightRow → Bool)
    (h : t.any p = false) : t.filter p = [] := by
  induction t with
  | nil => rfl
  | cons a t ih =>
      simp only [List.any_cons, Bool.or_eq_false_iff] at h
      simp [List.filter_cons, h.1, ih h.2]

/-- Every upsert preserves the at-most-one-row-per-id invariant. -/
theorem upsert_preserves_inv (t : List InsightRow) (r : InsightRow)
    (h : AtMostOnePerId t) : AtMostOnePerId (upsert t r) := by
  intro s
  unfold upsert
  split
  · rw [filter_map_replace]
    exact h s
  · next hany =>
      have hany' : t.any (fun x => x.id == r.id) = false :=
        Bool.eq_false_iff.mpr hany
      rw [List.filter_append]
      by_cases hs : (r.id == s) = true
      · have hrs : r.id = s := eq_of_beq hs
        subst hrs
        rw [filter_of_any_eq_false t _ hany']
        simp
      · have hnil : List.filter (fun x => x.id == s) [r] = [] := by
          simp only [List.filter_cons, List.filter_nil]
          simp [hs]
        rw [hnil]
        simpa using h s

/-- The update branch of upsert puts r at every position whose id matched. -/
theorem filter_map_replace_self (t : List InsightRow) (r : InsightRow) :
    (t.map (fun x => if x.id == r.id then r else x)).filter (fun x => x.id == r.id)
      = List.replicate (t.filter (fun x => x.id == r.id)).length r := by
  induction t with
  | nil => rfl
  | cons a t ih =>
      rw [List.map_cons]
      cases h : (a.id == r.id) with
      | true =>
          have hhead : (if true = true then r else a) = r := rfl
          rw [hhead, filter_id_cons_pos _ _ _ (beq_self_eq_true r.id),
            filter_id_cons_pos _ _ _ h, List.length_cons, List.replicate_succ, ih]
      | false =>
          have hhead : (if false = true then r else a) = a := rfl
          rw [hhead, filter_id_cons_neg _ _ _ h, filter_id_cons_neg _ _ _ h, ih]

/-- On a table satisfying the invariant, the rows matching the upserted row's
id after an upsert are exactly the upserted row. -/
theorem filter_upsert_self (t : List InsightRow) (r : InsightRow)
    (h : AtMostOnePerId t) :
    (upsert t r).filter (fun x => x.id == r.id) = [r] := by
  unfold upsert
  split
  · next hany =>
      rw [filter_map_replace_self]
      have hpos : 0 < (t.filter (fun x => x.id == r.id)).length := by
        rcases List.any_eq_true.mp hany with ⟨x, hx, hxr⟩
        exact List.length_pos.mpr (List.ne_nil_of_mem (List.mem_filter.mpr ⟨hx, hxr⟩))
      have hone : (t.filter (fun x => x.id == r.id)).length = 1 :=
        Nat.le_antisymm (h r.id) hpos
      rw [hone]
      rfl
  · next hany =>
      have hany' : t.any (fun x => x.id == r.id) = false :=
        Bool.eq_false_iff.mpr hany
      rw [List.filter_append, filter_of_any_eq_false t _ hany']
      simp [List.filter_cons]

/-- Result of one get_insights_total call inside get_insights; the row dict
fields at lines 180-185 are these results. -/
def metric_result (api : ApiRequestParams → ApiResponse)
    (url metric page_access_token : String) : PyResult Int :=
  (get_insights_total api url metric page_access_token).result

/-- Body of the loop of get_insights (fbia.py lines 169-188): three metric
queries for the item's link, then an upsert keyed by id.  A sys.exit inside
any metric call aborts the whole run. -/
def process_feed_item (api : ApiRequestParams → ApiResponse)
    (page_access_token : String) (table : List InsightRow)
    (feed_item : FeedItem) : PyResult (List InsightRow) :=
  match metric_result api feed_item.link ("all_views") page_access_token with
  | .exit c => .exit c
  | .ok total_views =>
  match metric_result api feed_item.link ("all_view_durations_average") page_access_token with
  | .exit c => .exit c
  | .ok duration =>
  match metric_result api feed_item.link ("all_scrolls_average") page_access_token with
  | .exit c => .exit c
  | .ok scroll =>
    .ok (upsert table
      { id := feed_item.guid, headline := feed_item.title,
        publication_date := feed_item.pubDate, author := feed_item.author,
        url := feed_item.link, total_views := total_views,
        average_view_duration := duration, average_scroll_depth := scroll })

/-- Embedding of get_insights (fbia.py lines 160-190): fold the loop body
over the feed items, starting from the current table contents. -/
def get_insights (api : ApiRequestParams → ApiResponse)
    (page_access_token : String) (parsed_feed : ParsedFeed)
    (table : List InsightRow) : PyResult (List InsightRow) :=
  parsed_feed.rss.channel.item.foldl
    (fun acc feed_item =>
      match acc with
      | .exit c => .exit c
      | .ok t => process_feed_item api page_access_token t feed_item)
    (.ok table)

/-- A successful loop body run upserts a row whose id is the item's guid. -/
theorem process_ok_shape (api : ApiRequestParams → ApiResponse)
    (tok : String) (table : List InsightRow) (item : FeedItem)
    (t' : List InsightRow)
    (h : process_feed_item api tok table item = PyResult.ok t') :
    ∃ r : InsightRow, r.id = item.guid ∧ t' = upsert table r := by
  unfold process_feed_item at h
  split at h
  · cases h
  · split at h
    · cases h
    · split at h
      · cases h
      · exact ⟨_, rfl, (PyResult.ok.inj h).symm⟩

/-- When all three metric calls succeed, the loop body upserts the row built
from the item and those three totals. -/
theorem process_feed_item_eq (api : ApiRequestParams → ApiResponse)
    (tok : String) (table : List InsightRow) (item : FeedItem) (v d s : Int)
    (hv : metric_result api item.link ("all_views") tok = PyResult.ok v)
    (hd : metric_result api item.link ("all_view_durations_average") tok = PyResult.ok d)
    (hs : metric_result api item.link ("all_scrolls_average") tok = PyResult.ok s) :
    process_feed_item api tok table item
      = PyResult.ok (upsert table
          { id := item.guid, headline := item.title,
            publication_date := item.pubDate, author := item.author,
            url := item.link, total_views := v,
            average_view_duration := d, average_scroll_depth := s }) := by
  unfold process_feed_item
  rw [hv, hd, hs]

/-- C3: running get_insights twice over a feed holding one item leaves
exactly one row for that article id; that row carries the second run's three
metric totals; the table invariant still holds; and every upsert preserves
the at-most-one-row-per-id invariant. -/
theorem get_insights_upsert_once
    (api1 api2 : ApiRequestParams → ApiResponse) (tok1 tok2 : String)
    (item : FeedItem) (t0 t1 t2 : List InsightRow)
    (hinv : AtMostOnePerId t0)
    (h1 : get_insights api1 tok1 { rss := { channel := { item := [item] } } } t0
            = PyResult.ok t1)
    (h2 : get_insights api2 tok2 { rss := { channel := { item := [item] } } } t1
            = PyResult.ok t2)
    (v d s : Int)
    (hv : metric_result api2 item.link ("all_views") tok2 = PyResult.ok v)
    (hd : metric_result api2 item.link ("all_view_durations_average") tok2 = PyResult.ok d)
    (hs : metric_result api2 item.link ("all_scrolls_average") tok2 = PyResult.ok s) :
    (t2.filter (fun x => x.id == item.guid)).length = 1
      ∧ t2.filter (fun x => x.id == item.guid)
          = [{ id := item.guid, headline := item.title,
               publication_date := item.pubDate, author := item.author,
               url := item.link, total_views := v,
               average_view_duration := d, average_scroll_depth := s }]
      ∧ AtMostOnePerId t2
      ∧ (∀ t r, AtMostOnePerId t → AtMostOnePerId (upsert t r)) := by
  have h1' : process_feed_item api1 tok1 t0 item = PyResult.ok t1 := h1
  have h2' : process_feed_item api2 tok2 t1 item = PyResult.ok t2 := h2
  obtain ⟨r1, _, ht1⟩ := process_ok_shape api1 tok1 t0 item t1 h1'
  have hinv1 : AtMostOnePerId t1 := ht1 ▸ upsert_preserves_inv t0 r1 hinv
  have ht2 : t2 = upsert t1
      { id := item.guid, headline := item.title,
        publication_date := item.pubDate, author := item.author,
        url := item.link, total_views := v,
        average_view_duration := d, average_scroll_depth := s } := by
    have := (process_feed_item_eq api2 tok2 t1 item v d s hv hd hs).symm.trans h2'
    exact (PyResult.ok.inj this).symm
  subst ht2
  refine ⟨?_, ?_, ?_, fun t r h => upsert_preserves_inv t r h⟩
  · exact (congrArg List.length (filter_upsert_self t1
      { id := item.guid, headline := item.title,
        publication_date := item.pubDate, author := item.author,
        url := item.link, total_views := v,
        average_view_duration := d, average_scroll_depth := s } hinv1)).trans rfl
  · exact filter_upsert_self t1
      { id := item.guid, headline := item.title,
        publication_date := item.pubDate, author := item.author,
        url := item.link, total_views := v,
        average_view_duration := d, average_scroll_depth := s } hinv1
  · exact upsert_preserves_inv t1 _ hinv1

/-- Concrete feed item used to instantiate C3. -/
def w3item : FeedItem := ⟨"A1", "T", "P", "Au", "http://x/1"⟩

/-- First-run insights environment for C3: every datapoint value is 1. -/
def w3api1 : ApiRequestParams → ApiResponse :=
  fun p => { status_code := 200, url := p.id, body := mkBody [⟨1⟩] }

/-- Second-run insights environment for C3: every datapoint value is 10. -/
def w3api2 : ApiRequestParams → ApiResponse :=
  fun p => { status_code := 200, url := p.id, body := mkBody [⟨10⟩] }

/-- Row produced by the first run for C3. -/
def w3row1 : InsightRow := ⟨"A1", "T", "P", "Au", "http://x/1", 1, 1, 1⟩

/-- Row produced by the second run for C3. -/
def w3row2 : InsightRow := ⟨"A1", "T", "P", "Au", "http://x/1", 10, 10, 10⟩

/-- Witness for C3: after two runs over the same one-item feed the table is
exactly the second run's row, which filters to itself. -/
theorem get_insights_upsert_once_witness :
    List.filter (fun x => x.id == w3item.guid) [w3row2] = [w3row2] :=
  (get_insights_upsert_once w3api1 w3api2 ("t") ("t") w3item [] [w3row1] [w3row2]
    (fun s => by simp) (by decide) (by decide) 10 10 10
    (by decide) (by decide) (by decide)).2.1

/-- One cached credential row of the credentials table; the source stores
the dict at fbia.py line 117 with a type column and a token column. -/
structure Credential where
  type : String
  token : String
  deriving DecidableEq, Repr

/-- Model of a requests.Response used by the token exchange and the feed
fetch: status code, final URL, and raw body text. -/
structure HttpResponse where
  status_code : Nat
  url : String
  text : String
  deriving DecidableEq, Repr

/-- Model of the page-token response: its raw text and the value of
json()["access_token"] when present; none models the KeyError branch. -/
structure PageTokenResponse where
  text : String
  access_token : Option String
  deriving DecidableEq, Repr

/-- Python str.split for a one-character separator: split the character list
at every occurrence of c; always returns at least one (possibly empty)
group, like Python's split on a non-empty separator. -/
def split_on_char (c : Char) : List Char → List (List Char)
  | [] => [[]]
  | a :: rest =>
      match split_on_char c rest with
      | [] => [[]]
      | grp :: grps => if a = c then [] :: grp :: grps else (a :: grp) :: grps

/-- Line 84 of fbia.py: token_request.text.split("=")[1].split("&")[0].
Indexing [1] raises IndexError exactly when the text holds no "=", which is
the none case; [0] of a split never fails. -/
def parse_exchange_token (text : String) : Option String :=
  match split_on_char '=' text.toList with
  | _ :: second :: _ => some (String.mk ((split_on_char '&' second).headD []))
  | _ => none

/-- Observable outcome of get_long_lived_user_token: number of HTTP calls
made, lines printed, and result. -/
structure TokenExchangeRun where
  http_calls : Nat
  logs : List String
  result : PyResult String
  deriving DecidableEq, Repr

/-- Embedding of get_long_lived_user_token (fbia.py lines 64-88): one HTTP
call, then the split at line 84; a malformed body prints the raw text and
the request URL and exits 1. -/
def get_long_lived_user_token (token_request : HttpResponse) : TokenExchangeRun :=
  match parse_exchange_token token_request.text with
  | some tok =>
      { http_calls := 1,
        logs := ["- Exchanging the provided user token for a long-lived token"],
        result := .ok tok }
  | none =>
      { http_calls := 1,
        logs := ["- Exchanging the provided user token for a long-lived token",
                 "Failed to fetch a page access token. Response: \""
                   ++ token_request.text ++ "\" from \"" ++ token_request.url ++ "\""],
        result := .exit 1 }

/-- Environment of the token manager: the response to the user-token
exchange, and the response to the page-token request as a function of the
long-lived token sent with it (the chaining at fbia.py line 111). -/
structure TokenEnv where
  exchange_response : HttpResponse
  page_response : String → PageTokenResponse

/-- Observable outcome of get_page_access_token: HTTP calls made, final
contents of the credentials table, lines printed, and result. -/
structure TokenManagerRun where
  http_calls : Nat
  credentials : List Credential
  logs : List String
  result : PyResult String
  deriving DecidableEq, Repr

/-- Line 102 of fbia.py: fb_table.find_one(type="page_token"), the first
credential row whose type column is page_token. -/
def find_one (credentials : List Credential) : Option Credential :=
  credentials.find? (fun c => c.type == "page_token")

/-- Embedding of get_page_access_token (fbia.py lines 91-122).  A cached row
is returned as is with no HTTP call and no write; otherwise the user-token
exchange runs (aborting if it exits), the page-token request runs on its
result, and on success one credential row is inserted; a body without the
access_token key prints the raw text and exits 1 without inserting. -/
def get_page_access_token (env : TokenEnv) (credentials : List Credential) :
    TokenManagerRun :=
  match find_one credentials with
  | some token_row =>
      { http_calls := 0, credentials := credentials,
        logs := ["- Getting a Facebook page access token"],
        result := .ok token_row.token }
  | none =>
      match get_long_lived_user_token env.exchange_response with
      | { http_calls := n, logs := ls, result := .exit c } =>
          { http_calls := n, credentials := credentials,
            logs := ["- Getting a Facebook page access token",
                     "- Fetching a new Facebook page access token"] ++ ls,
            result := .exit c }
      | { http_calls := n, logs := ls, result := .ok long_lived_token } =>
          match (env.page_response long_lived_token).access_token with
          | some page_token =>
              { http_calls := n + 1,
                credentials := credentials ++ [{ type := "page_token", token := page_token }],
                logs := ["- Getting a Facebook page access token",
                         "- Fetching a new Facebook page access token"] ++ ls,
                result := .ok page_token }
          | none =>
              { http_calls := n + 1, credentials := credentials,
                logs := ["- Getting a Facebook page access token",
                         "- Fetching a new Facebook page access token"] ++ ls
                  ++ ["Failed to fetch a page access token. Response: \""
                       ++ (env.page_response long_lived_token).text ++ "\""],
                result := .exit 1 }

/-- C7: with a cached page_token credential row present, get_page_access_token
returns that row's token unchanged, makes no HTTP call, and leaves the
credentials table untouched. -/
theorem get_page_access_token_cached (env : TokenEnv)
    (credentials : List Credential) (token_row : Credential)
    (hfound : find_one credentials = some token_row) :
    (get_page_access_token env credentials).result = PyResult.ok token_row.token
      ∧ (get_page_access_token env credentials).http_calls = 0
      ∧ (get_page_access_token env credentials).credentials = credentials := by
  unfold get_page_access_token
  rw [hfound]
  exact ⟨rfl, rfl, rfl⟩

/-- Token environment used by the C7 witness; it is never consulted. -/
def w7env : TokenEnv :=
  { exchange_response := { status_code := 200, url := "u", text := "" },
    page_response := fun _ => { text := "", access_token := none } }

/-- Witness for C7: a table already holding a page_token row. -/
theorem get_page_access_token_cached_witness :
    (get_page_access_token w7env [{ type := "page_token", token := "T" }]).result
      = PyResult.ok ("T") :=
  (get_page_access_token_cached w7env [{ type := "page_token", token := "T" }]
    { type := "page_token", token := "T" } (by decide)).1

/-- C8: with no cached row, get_page_access_token makes exactly two chained
HTTP calls, appends exactly the one new credential row, and returns the page
token obtained by the second call on the first call's result. -/
theorem get_page_access_token_fresh (env : TokenEnv)
    (credentials : List Credential) (hnone : find_one credentials = none)
    (long_lived page_token : String)
    (hexchange : parse_exchange_token env.exchange_response.text = some long_lived)
    (hpage : (env.page_response long_lived).access_token = some page_token) :
    (get_page_access_token env credentials).http_calls = 2
      ∧ (get_page_access_token env credentials).credentials
          = credentials ++ [{ type := "page_token", token := page_token }]
      ∧ (get_page_access_token env credentials).result = PyResult.ok page_token := by
  unfold get_page_access_token get_long_lived_user_token
  rw [hnone, hexchange]
  simp [hpage]

/-- Token environment for the fresh-token path: the exchange response body
parses to LONG, and the page response to LONG carries page token PAGE. -/
def w8env : TokenEnv :=
  { exchange_response := { status_code := 200, url := "u", text := "access_token=LONG&expires=1" },
    page_response := fun t =>
      if t = "LONG" then { text := "", access_token := some ("PAGE") }
      else { text := "", access_token := none } }

/-- Witness for C8: starting from an empty credentials table. -/
theorem get_page_access_token_fresh_witness :
    (get_page_access_token w8env []).result = PyResult.ok ("PAGE") :=
  (get_page_access_token_fresh w8env [] (by decide) "LONG" "PAGE"
    (by decide) (by decide)).2.2

/-- C9: with no cached row, a malformed response from either exchange call
makes get_page_access_token exit 1 after printing the raw response body, and
no credential row is persisted. -/
theorem get_page_access_token_malformed_exits (env : TokenEnv)
    (credentials : List Credential) (hnone : find_one credentials = none) :
    (parse_exchange_token env.exchange_response.text = none →
        (get_page_access_token env credentials).result = PyResult.exit 1
          ∧ (get_page_access_token env credentials).credentials = credentials
          ∧ ("Failed to fetch a page access token. Response: \""
              ++ env.exchange_response.text ++ "\" from \""
              ++ env.exchange_response.url ++ "\"")
              ∈ (get_page_access_token env credentials).logs)
      ∧ (∀ long_lived, parse_exchange_token env.exchange_response.text = some long_lived →
          (env.page_response long_lived).access_token = none →
          (get_page_access_token env credentials).result = PyResult.exit 1
            ∧ (get_page_access_token env credentials).credentials = credentials
            ∧ ("Failed to fetch a page access token. Response: \""
                ++ (env.page_response long_lived).text ++ "\"")
                ∈ (get_page_access_token env credentials).logs) := by
  constructor
  · intro hmal
    unfold get_page_access_token get_long_lived_user_token
    rw [hnone, hmal]
    simp
  · intro long_lived hexchange hmal
    unfold get_page_access_token get_long_lived_user_token
    rw [hnone, hexchange]
    simp [hmal]

/-- Token environment whose exchange response body holds no equals sign. -/
def w9env : TokenEnv :=
  { exchange_response := { status_code := 200, url := "u", text := "oops" },
    page_response := fun _ => { text := "", access_token := none } }

/-- Witness for C9: the malformed first exchange exits with code 1. -/
theorem get_page_access_token_malformed_exits_witness :
    (get_page_access_token w9env []).result = PyResult.exit 1 :=
  ((get_page_access_token_malformed_exits w9env [] (by decide)).1 (by decide)).1

/-- Embedding of get_facebook_feed (fbia.py lines 125-134): one HTTP GET,
then xmltodict.parse on the body text.  The parser is an input of the model;
the status code of the response is never inspected. -/
def get_facebook_feed (parse : String → ParsedFeed) (feed : HttpResponse) :
    ParsedFeed :=
  parse feed.text

/-- C10: get_facebook_feed hands the body to the XML parser and returns the
parse result whatever the status code is; changing the status code of the
response never changes the outcome. -/
theorem get_facebook_feed_ignores_status (parse : String → ParsedFeed)
    (feed : HttpResponse) :
    get_facebook_feed parse feed = parse feed.text
      ∧ ∀ code : Nat,
          get_facebook_feed parse { feed with status_code := code }
            = get_facebook_feed parse feed :=
  ⟨rfl, fun _ => rfl⟩

end Fbia
